import Mathlib

/-!
Shallow embedding of the complexity-dashboard state/math kernel
(`src/js/complexity-state.js`, `src/js/complexity-math.js`,
`src/js/complexity-components.js`).

JS numbers are modelled by `ℚ` (the code only adds, multiplies, divides and
compares; every claim-relevant input is an exact decimal, so rational
arithmetic reproduces the comparisons the code makes).  A JS value handed to
the `ComplexityVector` constructor is modelled by `JSVal`: `undefined`
(which lets a default parameter kick in), a number, or any other defined
value (including `NaN`), which the validator rejects.  Fallible operations
return a `CallResult` carrying the thrown error (if any), the state as the
call left it — including any mutation performed before the throw — and the
observer notifications that were emitted.
-/

namespace ComplexityDashboard

/-- `EPSILON = 1e-6`, the floating point comparison tolerance of the code. -/
def EPSILON : ℚ := 1 / 1000000

/-- `MAX_HISTORY = 100`, the default history capacity. -/
def MAX_HISTORY : ℕ := 100

/-- `SIGNAL_LOSS_THRESHOLD = 0.01` from `complexity-math.js`. -/
def SIGNAL_LOSS_THRESHOLD : ℚ := 1 / 100

/-- `Math.max(0, Math.min(1, x))`, the clamp used by `add`, `subtract`,
`scale` and `improve`. -/
def clamp01 (x : ℚ) : ℚ := max 0 (min 1 x)

/-- A JS value arriving at the `ComplexityVector` constructor:
`undef` models `undefined` (the `= 0.5` default parameter replaces it),
`num q` a finite number, `arrVal l` an array (which the constructor
destructures when it is the first parameter), and `nonNum` any other
defined value (strings, plain objects, `NaN`, ...), which `validate`
rejects. -/
inductive JSVal where
  | undef : JSVal
  | nonNum : JSVal
  | num : ℚ → JSVal
  | arrVal : List JSVal → JSVal
deriving Repr

/-- Default-parameter resolution of one constructor argument: `undefined`
becomes the default `0.5`; everything else stays as supplied. -/
def resolveArg (a : JSVal) : JSVal :=
  match a with
  | JSVal.undef => JSVal.num (1 / 2)
  | x => x

/-- `validate`'s check on one component: it must be a number in `[0, 1]`. -/
def validComp (a : JSVal) : Bool :=
  match a with
  | JSVal.num q => decide (0 ≤ q ∧ q ≤ 1)
  | _ => false

/-- The numeric payload of a component already known valid. -/
def compVal (a : JSVal) : ℚ :=
  match a with
  | JSVal.num q => q
  | _ => 0

/-- The validated 4-component complexity vector.  `data` mirrors
`this.data = [alg, info, dyn, geom]`. -/
structure ComplexityVector where
  data : List ℚ
deriving DecidableEq, Repr

/-- `new ComplexityVector(...args)` (spread call): the parameters `alg`,
`info`, `dyn`, `geom` are bound to the first four arguments (extras are
discarded by the four-parameter signature), with the `0.5` default
substituted for missing or `undefined` positions; then, when the first
parameter is an array (`Array.isArray(alg)`), the constructor destructures
that array's first four elements over all four parameters — missing
elements become `undefined` and the defaults do *not* re-apply there;
finally `validate` rejects any component that is not a number in `[0,1]`.
`none` models the constructor throwing. -/
def mkVector (args : List JSVal) : Option ComplexityVector :=
  let padded := args.take 4 ++ List.replicate (4 - (args.take 4).length) JSVal.undef
  let bound := padded.map resolveArg
  let comps :=
    match bound with
    | JSVal.arrVal inner :: _ =>
        inner.take 4 ++ List.replicate (4 - (inner.take 4).length) JSVal.undef
    | other => other
  if comps.all validComp then some ⟨comps.map compVal⟩ else none

/-- A vector is valid when it has the four components the constructor
guarantees, each in `[0, 1]`. -/
def ValidVec (v : ComplexityVector) : Prop :=
  v.data.length = 4 ∧ ∀ x ∈ v.data, 0 ≤ x ∧ x ≤ 1

instance (v : ComplexityVector) : Decidable (ValidVec v) := by
  unfold ValidVec; infer_instance

/-- `clone()`: rebuilds the vector from its own four components. -/
def cvClone (v : ComplexityVector) : ComplexityVector := ⟨v.data⟩

/-- `add(other)`: componentwise sum clamped into `[0,1]`.  The constructor
run on the clamped result cannot throw, so the result is direct. -/
def cvAdd (a b : ComplexityVector) : ComplexityVector :=
  ⟨a.data.zipWith (fun x y => clamp01 (x + y)) b.data⟩

/-- `subtract(other)`: componentwise difference, then clamped into `[0,1]`. -/
def cvSubtract (a b : ComplexityVector) : ComplexityVector :=
  ⟨a.data.zipWith (fun x y => clamp01 (x - y)) b.data⟩

/-- `scale(factor)`: componentwise multiply, clamped into `[0,1]`. -/
def cvScale (a : ComplexityVector) (factor : ℚ) : ComplexityVector :=
  ⟨a.data.map (fun v => clamp01 (v * factor))⟩

/-- `equals(other, epsilon)`: componentwise `|difference| < epsilon`
(via `Array.every` over index-paired components). -/
def cvEquals (a b : ComplexityVector) (eps : ℚ) : Bool :=
  (a.data.zip b.data).all (fun p => decide (|p.1 - p.2| < eps))

/-- `this.keys.indexOf(key)` for the fixed key list
`['alg', 'info', 'dyn', 'geom']` (`-1` becomes `none`). -/
def keyIndex (key : String) : Option ℕ :=
  if key = "alg" then some 0
  else if key = "info" then some 1
  else if key = "dyn" then some 2
  else if key = "geom" then some 3
  else none

/-- `arr.reduce((sum, val, idx) => sum + val * w[idx], 0)`: the dot product
of the components with the index-matched weights. -/
def dotProduct (vals ws : List ℚ) : ℚ :=
  ((vals.zip ws).map (fun p => p.1 * p.2)).sum

/-- `DEFAULT_WEIGHTS = [0.25, 0.25, 0.25, 0.25]`. -/
def DEFAULT_WEIGHTS : List ℚ := [1/4, 1/4, 1/4, 1/4]

/-- `ComplexityMath.computeScalarAverage(vector, weights)`: weighted dot
product; when the weights do not sum to 1 within `EPSILON` they are first
renormalized by their true sum.  `weights = none` models the `null`
default, replaced by `DEFAULT_WEIGHTS`. -/
def computeScalarAverage (vector : ComplexityVector) (weights : Option (List ℚ)) : ℚ :=
  let w := weights.getD DEFAULT_WEIGHTS
  let arr := vector.data
  let s := w.sum
  if |s - 1| > EPSILON then dotProduct arr (w.map (fun wi => wi / s))
  else dotProduct arr w

/-- `ComplexityMath.applyImprovement(vector, pillar, delta)`: clone, read
the pillar by key, add `delta` clamped to `[0,1]`, write it back.  `none`
models the `Invalid pillar` throw on an unknown key; for a known key on a
four-component vector the keyed read is in range and the keyed write of a
clamped value passes validation. -/
def applyImprovement (vector : ComplexityVector) (pillar : String) (delta : ℚ) :
    Option ComplexityVector :=
  match keyIndex pillar with
  | none => none
  | some i =>
      let current := vector.data.getD i 0
      some ⟨vector.data.set i (clamp01 (current + delta))⟩

/-- `ComplexityMath.categorizeLoss(vectorDelta, scalarDelta)`.  The JS
`compression` test compares `|scalarDelta| < Math.sqrt(Σ dᵢ²) / 2`; both
sides are nonnegative, so squaring gives the equivalent rational test
`(2·|scalarDelta|)² < Σ dᵢ²` used here. -/
def categorizeLoss (vectorDelta : List ℚ) (scalarDelta : ℚ) : String :=
  let hasPositive := vectorDelta.any (fun d => decide (d > EPSILON))
  let hasNegative := vectorDelta.any (fun d => decide (d < -EPSILON))
  if hasPositive ∧ hasNegative ∧ |scalarDelta| < EPSILON then "cancellation"
  else if hasPositive ∧ scalarDelta < -EPSILON then "inversion"
  else if hasPositive ∧ |scalarDelta| < EPSILON then "invisibility"
  else if |scalarDelta| > EPSILON then
    (let sumSquares := (vectorDelta.map (fun d => d * d)).sum
     if (2 * |scalarDelta|) ^ 2 < sumSquares then "compression" else "none")
  else "none"

/-- The signal-loss report returned by `calculateSignalLoss`:  `byPillar`
models the `lostSignals` object as an association list in insertion order
(the four keys are distinct, so no overwrite can occur). -/
structure SignalLossReport where
  total : ℚ
  byPillar : List (String × ℚ)
  scalarChange : ℚ
  vectorChanges : List ℚ
  isSignalLost : Bool
  lossType : String
deriving DecidableEq, Repr

/-- `ComplexityMath.calculateSignalLoss(before, after, weights)`: raw
per-dimension deltas `after - before`, scalar delta via
`computeScalarAverage`, then every dimension with a positive raw delta is
flagged lost when the scalar delta is negligible (`|·| <
SIGNAL_LOSS_THRESHOLD`) or negative. -/
def calculateSignalLoss (before after : ComplexityVector) (weights : Option (List ℚ)) :
    SignalLossReport :=
  let vectorDelta := after.data.zipWith (fun a b => a - b) before.data
  let scalarBefore := computeScalarAverage before weights
  let scalarAfter := computeScalarAverage after weights
  let scalarDelta := scalarAfter - scalarBefore
  let keys := ["alg", "info", "dyn", "geom"]
  let lostPairs := (keys.zip vectorDelta).filter
    (fun p => decide ((p.2 > 0 ∧ |scalarDelta| < SIGNAL_LOSS_THRESHOLD) ∨
                      (p.2 > 0 ∧ scalarDelta < 0)))
  let totalLoss := (lostPairs.map Prod.snd).sum
  { total := totalLoss
    byPillar := lostPairs
    scalarChange := scalarDelta
    vectorChanges := vectorDelta
    isSignalLost := decide (totalLoss > SIGNAL_LOSS_THRESHOLD)
    lossType := categorizeLoss vectorDelta scalarDelta }

/-- The per-pillar improvement step sizes (`deltas` mapping). -/
structure Deltas where
  alg : ℚ
  info : ℚ
  dyn : ℚ
  geom : ℚ
deriving DecidableEq, Repr

/-- `DEFAULT_DELTAS = { alg: 0.2, info: 0.2, dyn: 0.15, geom: 0.3 }`. -/
def DEFAULT_DELTAS : Deltas := ⟨1/5, 1/5, 3/20, 3/10⟩

/-- The paradox summary returned by `generateCycle`. -/
structure CycleParadox where
  scalarInitial : ℚ
  scalarFinal : ℚ
  vectorInitial : List ℚ
  vectorFinal : List ℚ
  totalDelta : ℚ
deriving DecidableEq, Repr

/-- The value returned by `generateCycle`. -/
structure CycleResult where
  states : List ComplexityVector
  operations : List String
  paradox : CycleParadox
deriving DecidableEq, Repr

/-- `ComplexityMath.generateCycle(initial, deltas)`: the six recorded
states (initial, four cumulative improvements, then a clone of the initial
vector as the geometric return) with the operation labels and the paradox
summary.  The four `applyImprovement` calls use the literal keys
`alg`/`info`/`dyn`/`geom`, so the `Option` layer only reflects that
plumbing. -/
def generateCycle (initial : ComplexityVector) (deltas : Deltas) : Option CycleResult :=
  match applyImprovement (cvClone initial) "alg" deltas.alg with
  | none => none
  | some s1 =>
    match applyImprovement s1 "info" deltas.info with
    | none => none
    | some s2 =>
      match applyImprovement s2 "dyn" deltas.dyn with
      | none => none
      | some s3 =>
        match applyImprovement s3 "geom" deltas.geom with
        | none => none
        | some s4 =>
          some
            { states := [cvClone initial, cvClone s1, cvClone s2, cvClone s3,
                         cvClone s4, cvClone initial]
              operations := ["Optimize Algorithm", "Add Correlations",
                             "Increase Dynamics", "Enrich Topology",
                             "Geometric Return"]
              paradox :=
                { scalarInitial := computeScalarAverage initial none
                  scalarFinal := computeScalarAverage s4 none
                  vectorInitial := initial.data
                  vectorFinal := s4.data
                  totalDelta := deltas.alg + deltas.info + deltas.dyn + deltas.geom } }

/-- One history entry as built by `addToHistory`.  Entries rebuilt by
`import` carry neither `scalar` nor `operationIndex` (those properties are
simply absent, i.e. `undefined`, on the imported objects), hence the
`Option` on both. -/
structure HistoryEntry where
  vector : ComplexityVector
  operation : Option String
  timestamp : ℤ
  scalar : Option ℚ
  operationIndex : Option ℕ
deriving DecidableEq, Repr

/-- The `ComplexityState` session object.  The observer list itself is not
modelled; the notifications an operation fans out to it are returned by the
operation (see `CallResult`).  `currentScenario` is UI plumbing no claim
touches and is omitted. -/
structure ComplexityState where
  vector : ComplexityVector
  history : List HistoryEntry
  maxHistory : ℕ
  weights : List ℚ
  deltas : Deltas
  lastOperation : Option String
  sessionStartTime : ℤ
  operationCount : ℕ
deriving DecidableEq, Repr

/-- The observer notifications (`notify` payloads), one case per `type`
tag. -/
inductive Event where
  | vectorUpdate : ComplexityVector → Option String → ℤ → Event
  | weightsUpdate : List ℚ → ℤ → Event
  | deltasUpdate : Deltas → ℤ → Event
  | importDone : ℤ → Event
deriving DecidableEq, Repr

/-- The outcome of one fallible state-manager call: the thrown error
message (if the call threw), the state as the call left it — including any
mutation performed before the throw — and the notifications emitted. -/
structure CallResult where
  err : Option String
  state : ComplexityState
  events : List Event
deriving Repr

/-- The state built by `new ComplexityState({})` with the default
configuration; `now` stands for the `Date.now()` session start. -/
def initialState (now : ℤ) : ComplexityState :=
  { vector := ⟨[1/2, 1/2, 1/2, 1/2]⟩
    history := []
    maxHistory := MAX_HISTORY
    weights := DEFAULT_WEIGHTS
    deltas := DEFAULT_DELTAS
    lastOperation := none
    sessionStartTime := now
    operationCount := 0 }

/-- `getScalar(vector)` on a state: the weighted average under the state's
current weights, renormalizing (with a console warning) when they do not
sum to 1 within `EPSILON`. -/
def getScalar (s : ComplexityState) (v : ComplexityVector) : ℚ :=
  let w := s.weights
  let sum := w.sum
  if |sum - 1| > EPSILON then dotProduct v.data (w.map (fun wi => wi / sum))
  else dotProduct v.data w

/-- The entry `addToHistory` pushes for snapshot `v`: a clone of the
snapshot, the operation label, the `Date.now()` timestamp, the scalar of
the snapshot under the current weights, and the current operation index. -/
def historyEntry (s : ComplexityState) (v : ComplexityVector) (op : Option String)
    (now : ℤ) : HistoryEntry :=
  { vector := cvClone v
    operation := op
    timestamp := now
    scalar := some (getScalar s v)
    operationIndex := some s.operationCount }

/-- `addToHistory(vector, operation)`: push the entry, then `shift` the
oldest entry off when the length exceeds `maxHistory`. -/
def addToHistory (s : ComplexityState) (v : ComplexityVector) (op : Option String)
    (now : ℤ) : ComplexityState :=
  let pushed := s.history ++ [historyEntry s v op now]
  let bounded := if pushed.length > s.maxHistory then pushed.tail else pushed
  { s with history := bounded }

/-- The argument handed to `updateVector`: a JS array (whose elements are
arbitrary JS values), a `ComplexityVector` instance, or any other value. -/
inductive VectorArg where
  | arr : List JSVal → VectorArg
  | vec : ComplexityVector → VectorArg
  | other : VectorArg
deriving Repr

/-- Whether the argument survives `updateVector`'s dispatch: an array must
construct (`new ComplexityVector(...newVector)` must not throw), an
instance always passes, anything else throws `Invalid vector type`. -/
def VectorArg.parses (a : VectorArg) : Bool :=
  match a with
  | VectorArg.arr xs => (mkVector xs).isSome
  | VectorArg.vec _ => true
  | VectorArg.other => false

/-- `updateVector(newVector, operation)`.  Mirrors the statement order of
the source: the snapshot of the *current* vector is pushed onto history
first, and only then is the argument inspected, so a failing call has
already mutated the history. -/
def updateVector (s : ComplexityState) (arg : VectorArg) (op : Option String)
    (now : ℤ) : CallResult :=
  let s1 := addToHistory s (cvClone s.vector) op now
  match arg with
  | VectorArg.arr xs =>
      match mkVector xs with
      | some v =>
          let s2 := { s1 with vector := v, lastOperation := op,
                              operationCount := s1.operationCount + 1 }
          ⟨none, s2, [Event.vectorUpdate v op now]⟩
      | none => ⟨some "component validation failed", s1, []⟩
  | VectorArg.vec v =>
      let s2 := { s1 with vector := cvClone v, lastOperation := op,
                          operationCount := s1.operationCount + 1 }
      ⟨none, s2, [Event.vectorUpdate (cvClone v) op now]⟩
  | VectorArg.other => ⟨some "Invalid vector type", s1, []⟩

/-- The data array `improve` hands to the constructor.  A JS write
`updated[pillar] = ...` with `pillar` outside `0..3` lands beyond the four
positions the constructor reads (an out-of-range index write followed by a
spread that the four-parameter signature truncates back to the original
four components), so it is dropped; in range it is an ordinary element
update. -/
def improveData (current : List ℚ) (pillar : ℤ) (delta : ℚ) : List ℚ :=
  if 0 ≤ pillar ∧ pillar < 4 then
    current.set pillar.toNat (clamp01 (current.getD pillar.toNat 0 + delta))
  else current

/-- `improve(pillar, delta)`: clamp-add `delta` at index `pillar`, build a
new vector from the result (the constructor validates it) and route it
through `updateVector`.  The generated label
`improve_<key>_<delta.toFixed(3)>` is modelled as the fixed tag
`"improve"`; no claim inspects its rendering. -/
def improve (s : ComplexityState) (pillar : ℤ) (delta : ℚ) (now : ℤ) : CallResult :=
  let updated := improveData s.vector.data pillar delta
  match mkVector (updated.map JSVal.num) with
  | some v => updateVector s (VectorArg.vec v) (some "improve") now
  | none => ⟨some "component validation failed", s, []⟩

/-- The argument handed to `updateWeights`: a JS array of numbers or any
non-array value. -/
inductive WeightsArg where
  | arr : List ℚ → WeightsArg
  | other : WeightsArg
deriving Repr

/-- `updateWeights(newWeights)`: throws unless the argument is an array of
exactly four entries, otherwise stores the entries divided by their sum
and notifies.  (In JS a zero sum produces `NaN` weights; with rationals
division by zero yields `0` — in both semantics the stored weights then
fail to sum to 1.) -/
def updateWeights (s : ComplexityState) (arg : WeightsArg) (now : ℤ) : CallResult :=
  match arg with
  | WeightsArg.arr xs =>
      if xs.length = 4 then
        let sum := xs.sum
        let w := xs.map (fun wi => wi / sum)
        ⟨none, { s with weights := w }, [Event.weightsUpdate w now]⟩
      else ⟨some "Weights must be array of length 4", s, []⟩
  | WeightsArg.other => ⟨some "Weights must be array of length 4", s, []⟩

/-- `reset(initial = DEFAULT_VECTOR)`: clear history, counters and the last
operation, then route the new vector (an array) through
`updateVector(initial, 'reset')`. -/
def reset (s : ComplexityState) (initial : List JSVal) (now : ℤ) : CallResult :=
  let s1 := { s with history := [], operationCount := 0, lastOperation := none }
  updateVector s1 (VectorArg.arr initial) (some "reset") now

/-- `DEFAULT_VECTOR = [0.5, 0.5, 0.5, 0.5]` as a constructor argument
list. -/
def DEFAULT_VECTOR_ARGS : List JSVal :=
  [JSVal.num (1/2), JSVal.num (1/2), JSVal.num (1/2), JSVal.num (1/2)]

/-- One history entry of an export/import payload: `{vector, operation,
timestamp}` — no `scalar`, no `operationIndex`. -/
structure PayloadEntry where
  vector : List JSVal
  operation : Option String
  timestamp : ℤ
deriving Repr

/-- The `metadata` block of a payload; either numeric field may be absent. -/
structure PayloadMeta where
  sessionStartTime : Option ℤ
  operationCount : Option ℕ
  exportTime : ℤ
deriving Repr

/-- An export/import payload.  `Option` on `weights`, `deltas`, `history`
and `metadata` models the `|| default` / `?.` fallbacks `import` applies
when a field is absent. -/
structure Payload where
  vector : List JSVal
  weights : Option (List ℚ)
  deltas : Option Deltas
  history : Option (List PayloadEntry)
  metadata : Option PayloadMeta
deriving Repr

/-- `export()`: the current vector, weights and deltas, the history with
each entry reduced to `{vector, operation, timestamp}`, and the metadata
block (`exportTime` is the `Date.now()` of the call). -/
def exportState (s : ComplexityState) (now : ℤ) : Payload :=
  { vector := s.vector.data.map JSVal.num
    weights := some s.weights
    deltas := some s.deltas
    history := some (s.history.map (fun h =>
      { vector := h.vector.data.map JSVal.num
        operation := h.operation
        timestamp := h.timestamp }))
    metadata := some
      { sessionStartTime := some s.sessionStartTime
        operationCount := some s.operationCount
        exportTime := now } }

/-- The history rebuild inside `import`: `data.history.map` constructing a
vector per entry; the first entry whose vector fails validation makes the
whole `map` throw (so `this.history` is never assigned). -/
def parseHistory (entries : List PayloadEntry) : Option (List HistoryEntry) :=
  match entries with
  | [] => some []
  | e :: rest =>
      match mkVector e.vector with
      | none => none
      | some v =>
          match parseHistory rest with
          | none => none
          | some hs =>
              some ({ vector := v
                      operation := e.operation
                      timestamp := e.timestamp
                      scalar := none
                      operationIndex := none } :: hs)

/-- `data.metadata?.sessionStartTime || Date.now()`: a present, nonzero
start time is kept, otherwise (`undefined` or the falsy `0`) the current
time is used. -/
def importedStartTime (m : Option PayloadMeta) (now : ℤ) : ℤ :=
  match m with
  | some meta =>
      match meta.sessionStartTime with
      | some t => if t = 0 then now else t
      | none => now
  | none => now

/-- `data.metadata?.operationCount || 0`. -/
def importedOpCount (m : Option PayloadMeta) : ℕ :=
  match m with
  | some meta => meta.operationCount.getD 0
  | none => 0

/-- `import(data)`.  Mirrors the statement order of the source `try`
block: the current vector, the weights and the deltas are assigned first;
only then is the history parsed, so a payload whose top-level vector is
valid but whose history holds an invalid vector throws *after* those
assignments and the error state keeps them (the `catch` merely rethrows
`Invalid import data`). -/
def importState (s : ComplexityState) (data : Payload) (now : ℤ) : CallResult :=
  match mkVector data.vector with
  | none => ⟨some "Invalid import data", s, []⟩
  | some v =>
      let s1 := { s with vector := v
                         weights := data.weights.getD DEFAULT_WEIGHTS
                         deltas := data.deltas.getD DEFAULT_DELTAS }
      match parseHistory (data.history.getD []) with
      | none => ⟨some "Invalid import data", s1, []⟩
      | some hs =>
          let s2 := { s1 with history := hs
                              sessionStartTime := importedStartTime data.metadata now
                              operationCount := importedOpCount data.metadata }
          ⟨none, s2, [Event.importDone now]⟩

/-- Fold a list of `updateVector` calls (argument, label, timestamp) over a
state, keeping the state each call leaves behind. -/
def runUpdates (s : ComplexityState) (calls : List (VectorArg × Option String × ℤ)) :
    ComplexityState :=
  calls.foldl (fun st c => (updateVector st c.1 c.2.1 c.2.2).state) s

/-- The full (uncapped) log of snapshots the same call sequence pushes:
each call logs `historyEntry` of the then-current vector.  Used to state
the FIFO-eviction property. -/
def runUpdatesLog (s : ComplexityState) (calls : List (VectorArg × Option String × ℤ)) :
    List HistoryEntry :=
  match calls with
  | [] => []
  | c :: rest =>
      historyEntry s (cvClone s.vector) c.2.1 c.2.2 ::
        runUpdatesLog (updateVector s c.1 c.2.1 c.2.2).state rest

/-! ### Helper lemmas -/

theorem clamp01_nonneg (x : ℚ) : 0 ≤ clamp01 x := le_max_left 0 _

theorem clamp01_le_one (x : ℚ) : clamp01 x ≤ 1 :=
  max_le zero_le_one (min_le_left 1 x)

theorem zip_self_all_lt (l : List ℚ) (eps : ℚ) (h : 0 < eps) :
    (l.zip l).all (fun p => decide (|p.1 - p.2| < eps)) = true := by
  induction l with
  | nil => rfl
  | cons x xs ih =>
      rw [List.zip_cons_cons, List.all_cons, ih]
      simp [h]

theorem cvEquals_self (v : ComplexityVector) : cvEquals v v EPSILON = true := by
  unfold cvEquals
  exact zip_self_all_lt v.data EPSILON (by norm_num [EPSILON])

theorem mkVector_of_valid (v : ComplexityVector) (h : ValidVec v) :
    mkVector (v.data.map JSVal.num) = some v := by
  obtain ⟨hlen, hval⟩ := h
  obtain ⟨data⟩ := v
  simp only at hlen hval
  rcases data with _ | ⟨a, _ | ⟨b, _ | ⟨c, _ | ⟨d, _ | ⟨e, t⟩⟩⟩⟩⟩ <;> simp at hlen
  have ha := hval a (by simp)
  have hb := hval b (by simp)
  have hc := hval c (by simp)
  have hd := hval d (by simp)
  simp [mkVector, resolveArg, validComp, compVal, ha.1, ha.2, hb.1, hb.2,
        hc.1, hc.2, hd.1, hd.2]

theorem updateVector_history_max (s : ComplexityState) (a : VectorArg)
    (op : Option String) (now : ℤ) :
    (updateVector s a op now).state.history =
      (addToHistory s (cvClone s.vector) op now).history ∧
    (updateVector s a op now).state.maxHistory = s.maxHistory := by
  cases a with
  | arr xs =>
      cases h : mkVector xs <;> simp [updateVector, h, addToHistory]
  | vec v => simp [updateVector, addToHistory]
  | other => simp [updateVector, addToHistory]

theorem runUpdates_history (calls : List (VectorArg × Option String × ℤ))
    (s : ComplexityState) (h0 : s.history.length ≤ s.maxHistory) :
    (runUpdates s calls).history =
      (s.history ++ runUpdatesLog s calls).drop
        (s.history.length + calls.length - s.maxHistory) ∧
    (runUpdates s calls).history.length =
      min (s.history.length + calls.length) s.maxHistory := by
  induction calls generalizing s with
  | nil =>
      constructor
      · simp only [runUpdates, List.foldl_nil, runUpdatesLog, List.append_nil,
                   List.length_nil, Nat.add_zero]
        rw [Nat.sub_eq_zero_of_le h0, List.drop_zero]
      · simp only [runUpdates, List.foldl_nil, List.length_nil, Nat.add_zero]
        omega
  | cons c rest ih =>
      have hstep := updateVector_history_max s c.1 c.2.1 c.2.2
      set s' := (updateVector s c.1 c.2.1 c.2.2).state with hs'
      have hrun : runUpdates s (c :: rest) = runUpdates s' rest := by
        simp [runUpdates]
      have hlog : runUpdatesLog s (c :: rest) =
          historyEntry s (cvClone s.vector) c.2.1 c.2.2 :: runUpdatesLog s' rest := by
        simp [runUpdatesLog]
      set e := historyEntry s (cvClone s.vector) c.2.1 c.2.2 with he
      by_cases hcap : s.history.length + 1 > s.maxHistory
      · -- at capacity: the oldest entry is shifted off
        have hmaxeq : s.history.length = s.maxHistory := by omega
        have hhist : s'.history = (s.history ++ [e]).tail := by
          rw [hstep.1]
          simp only [addToHistory]
          rw [if_pos (by simp; omega)]
        have htail : ((s.history ++ [e]).tail).length = s.history.length := by
          rw [List.length_tail]
          simp
        have ih' := ih s' (by rw [hhist, htail, hstep.2]; omega)
        rw [hrun, hlog]
        constructor
        · rw [ih'.1, hhist, hstep.2, htail]
          have hidx1 : s.history.length + rest.length - s.maxHistory = rest.length := by
            omega
          rw [hidx1, ← List.drop_one,
              ← List.drop_append_of_le_length (by simp), List.drop_drop,
              List.append_assoc, List.singleton_append]
          have hidx2 : s.history.length + (c :: rest).length - s.maxHistory =
              1 + rest.length := by
            simp only [List.length_cons]
            omega
          rw [hidx2]
        · rw [ih'.2, hhist, hstep.2, htail]
          have ha : min (s.history.length + rest.length) s.maxHistory =
              s.maxHistory := min_eq_right (by omega)
          have hb : min (s.history.length + (c :: rest).length) s.maxHistory =
              s.maxHistory := min_eq_right (by simp only [List.length_cons]; omega)
          rw [ha, hb]
      · -- under capacity: the entry is simply appended
        have hhist : s'.history = s.history ++ [e] := by
          rw [hstep.1]
          simp only [addToHistory]
          rw [if_neg (by simp; omega)]
        have hlen' : (s.history ++ [e]).length = s.history.length + 1 := by
          simp
        have ih' := ih s' (by rw [hhist, hlen', hstep.2]; omega)
        rw [hrun, hlog]
        constructor
        · rw [ih'.1, hhist, hstep.2]
          have hidx : (s.history ++ [e]).length + rest.length - s.maxHistory =
              s.history.length + (c :: rest).length - s.maxHistory := by
            simp only [List.length_append, List.length_cons, List.length_nil]
            omega
          rw [hidx, List.append_assoc, List.singleton_append]
        · rw [ih'.2, hhist, hstep.2]
          have hlen2 : (s.history ++ [e]).length + rest.length =
              s.history.length + (c :: rest).length := by
            simp only [List.length_append, List.length_cons, List.length_nil]
            omega
          rw [hlen2]

/-! ### Claims -/

/-- C1 (code bug): the spec promises that a failed `import` leaves the
entire state unchanged, but `import` assigns the current vector, the
weights and the deltas *before* validating the history entries.  On a
payload whose top-level vector is valid but whose single history entry has
the out-of-range component `2`, the call throws `Invalid import data` yet
the state's vector has already been overwritten with the payload's vector,
so the state differs from its pre-call value. -/
theorem claim_C1_import_partial_mutation :
    (importState (initialState 0)
        { vector := [JSVal.num (9/10), JSVal.num (9/10), JSVal.num (9/10),
                     JSVal.num (9/10)]
          weights := some [1/4, 1/4, 1/4, 1/4]
          deltas := none
          history := some [{ vector := [JSVal.num 2, JSVal.num 0, JSVal.num 0,
                                        JSVal.num 0]
                             operation := none
                             timestamp := 0 }]
          metadata := none } 5).err = some "Invalid import data" ∧
    (importState (initialState 0)
        { vector := [JSVal.num (9/10), JSVal.num (9/10), JSVal.num (9/10),
                     JSVal.num (9/10)]
          weights := some [1/4, 1/4, 1/4, 1/4]
          deltas := none
          history := some [{ vector := [JSVal.num 2, JSVal.num 0, JSVal.num 0,
                                        JSVal.num 0]
                             operation := none
                             timestamp := 0 }]
          metadata := none } 5).state.vector =
      ⟨[9/10, 9/10, 9/10, 9/10]⟩ ∧
    (importState (initialState 0)
        { vector := [JSVal.num (9/10), JSVal.num (9/10), JSVal.num (9/10),
                     JSVal.num (9/10)]
          weights := some [1/4, 1/4, 1/4, 1/4]
          deltas := none
          history := some [{ vector := [JSVal.num 2, JSVal.num 0, JSVal.num 0,
                                        JSVal.num 0]
                             operation := none
                             timestamp := 0 }]
          metadata := none } 5).state ≠ initialState 0 := by
  refine ⟨?_, ?_, ?_⟩ <;>
    norm_num [importState, mkVector, resolveArg, validComp, compVal, parseHistory,
              initialState, DEFAULT_WEIGHTS, DEFAULT_DELTAS, MAX_HISTORY, EPSILON,
              List.take, List.replicate, List.map, List.all]

/-- C2 (counterexample): the claim fails in two ways.  First, a failed
`updateVector` call is claimed to perform no partial mutation, but the
snapshot push precedes the argument check: calling it on the fresh default
state with a non-vector argument throws, yet the history has grown from
empty to one entry.  Second, the claim says every array argument
containing a non-numeric component throws — but the array
`[[0.6, 0.6, 0.6, 0.6]]`, whose only component is an array (not a
number), succeeds: the constructor's `Array.isArray(alg)` branch
destructures the inner array, and the call replaces the vector. -/
theorem claim_C2_counterexample :
    ((updateVector (initialState 0) VectorArg.other none 3).err.isSome = true ∧
     (updateVector (initialState 0) VectorArg.other none 3).state.history ≠
       (initialState 0).history) ∧
    ((updateVector (initialState 0)
        (VectorArg.arr [JSVal.arrVal [JSVal.num (3/5), JSVal.num (3/5),
                                      JSVal.num (3/5), JSVal.num (3/5)]])
        none 3).err = none ∧
     (updateVector (initialState 0)
        (VectorArg.arr [JSVal.arrVal [JSVal.num (3/5), JSVal.num (3/5),
                                      JSVal.num (3/5), JSVal.num (3/5)]])
        none 3).state.vector = ⟨[3/5, 3/5, 3/5, 3/5]⟩ ∧
     (updateVector (initialState 0)
        (VectorArg.arr [JSVal.arrVal [JSVal.num (3/5), JSVal.num (3/5),
                                      JSVal.num (3/5), JSVal.num (3/5)]])
        none 3).state.operationCount = 1) := by
  refine ⟨⟨?_, ?_⟩, ?_, ?_, ?_⟩ <;>
    norm_num [updateVector, mkVector, resolveArg, validComp, compVal, addToHistory,
              historyEntry, getScalar, dotProduct, cvClone, initialState,
              DEFAULT_WEIGHTS, DEFAULT_DELTAS, MAX_HISTORY, EPSILON,
              List.take, List.replicate, List.map, List.all]

/-- C2 (amended): for every argument that fails `updateVector`'s dispatch
— a non-array non-vector value, or an array the `ComplexityVector`
constructor rejects (after spread-call default substitution and, when the
first element is itself an array, its destructuring, some component is
missing, non-numeric or outside `[0,1]`) — the call throws and leaves the
current vector and the operation counter unchanged, but a snapshot of the
pre-call vector has already been pushed onto the history (with FIFO
eviction if at capacity). -/
theorem claim_C2_amended (s : ComplexityState) (arg : VectorArg)
    (op : Option String) (now : ℤ) (h : VectorArg.parses arg = false) :
    (updateVector s arg op now).err.isSome = true ∧
    (updateVector s arg op now).state.vector = s.vector ∧
    (updateVector s arg op now).state.operationCount = s.operationCount ∧
    (updateVector s arg op now).state.history =
      (addToHistory s (cvClone s.vector) op now).history := by
  cases arg with
  | arr xs =>
      have hmk : mkVector xs = none := by
        have h' : (mkVector xs).isSome = false := by
          simpa [VectorArg.parses] using h
        cases hx : mkVector xs with
        | none => rfl
        | some v => rw [hx] at h'; simp at h'
      simp [updateVector, hmk, addToHistory]
  | vec v => simp [VectorArg.parses] at h
  | other => simp [updateVector, addToHistory]

/-- C2 (witness): the amended statement applied to the default state and a
non-vector argument. -/
theorem claim_C2_amended_witness :
    (updateVector (initialState 0) VectorArg.other none 3).err.isSome = true ∧
    (updateVector (initialState 0) VectorArg.other none 3).state.vector =
      (initialState 0).vector ∧
    (updateVector (initialState 0) VectorArg.other none 3).state.operationCount =
      (initialState 0).operationCount ∧
    (updateVector (initialState 0) VectorArg.other none 3).state.history =
      (addToHistory (initialState 0) (cvClone (initialState 0).vector) none 3).history :=
  claim_C2_amended (initialState 0) VectorArg.other none 3 rfl

/-- C3 (counterexample): on before `[0.5,0.5,0.5,0.5]`, after
`[0.7,0.5,0.5,0.5]` with equal weights the report's loss-type tag is not
`none`: the scalar delta `0.05` is non-negligible but smaller than half
the Euclidean magnitude `0.2` of the raw delta vector, so `categorizeLoss`
tags it `compression`. -/
theorem claim_C3_counterexample :
    (calculateSignalLoss ⟨[1/2, 1/2, 1/2, 1/2]⟩ ⟨[7/10, 1/2, 1/2, 1/2]⟩
        (some [1/4, 1/4, 1/4, 1/4])).lossType ≠ "none" := by
  norm_num [calculateSignalLoss, categorizeLoss, computeScalarAverage, dotProduct,
            EPSILON, SIGNAL_LOSS_THRESHOLD, List.zipWith, List.zip, List.filter,
            List.any, abs_of_pos]
  decide

/-- C3 (amended): on that input no dimension is flagged lost (total `0`,
empty per-dimension map) — but the loss-type tag is `compression`, not
`none`. -/
theorem claim_C3_amended :
    (calculateSignalLoss ⟨[1/2, 1/2, 1/2, 1/2]⟩ ⟨[7/10, 1/2, 1/2, 1/2]⟩
        (some [1/4, 1/4, 1/4, 1/4])).total = 0 ∧
    (calculateSignalLoss ⟨[1/2, 1/2, 1/2, 1/2]⟩ ⟨[7/10, 1/2, 1/2, 1/2]⟩
        (some [1/4, 1/4, 1/4, 1/4])).byPillar = [] ∧
    (calculateSignalLoss ⟨[1/2, 1/2, 1/2, 1/2]⟩ ⟨[7/10, 1/2, 1/2, 1/2]⟩
        (some [1/4, 1/4, 1/4, 1/4])).lossType = "compression" := by
  refine ⟨?_, ?_, ?_⟩ <;>
    norm_num [calculateSignalLoss, categorizeLoss, computeScalarAverage, dotProduct,
              EPSILON, SIGNAL_LOSS_THRESHOLD, List.zipWith, List.zip, List.filter,
              List.any, abs_of_pos]

theorem mem_zipWith_ex {α : Type} {g : α → α → α} {l1 l2 : List α} {x : α}
    (hx : x ∈ List.zipWith g l1 l2) : ∃ u v, x = g u v := by
  induction l1 generalizing l2 with
  | nil => simp at hx
  | cons y ys ih =>
      cases l2 with
      | nil => simp at hx
      | cons z zs =>
          rw [List.zipWith_cons_cons, List.mem_cons] at hx
          rcases hx with h | h
          · exact ⟨y, z, h⟩
          · exact ih h

theorem parseHistory_export (hist : List HistoryEntry)
    (hh : ∀ e ∈ hist, ValidVec e.vector) :
    parseHistory (hist.map (fun h =>
      ({ vector := h.vector.data.map JSVal.num
         operation := h.operation
         timestamp := h.timestamp } : PayloadEntry))) =
      some (hist.map (fun h =>
        { vector := h.vector
          operation := h.operation
          timestamp := h.timestamp
          scalar := none
          operationIndex := none })) := by
  induction hist with
  | nil => rfl
  | cons e rest ih =>
      have he := hh e (by simp)
      have hrest : ∀ x ∈ rest, ValidVec x.vector := fun x hx => hh x (by simp [hx])
      rw [List.map_cons, List.map_cons, parseHistory]
      rw [mkVector_of_valid e.vector he, ih hrest]

/-- C4 (counterexample): the round trip does not restore the stored scalar
of a history entry.  On the state reached from the default state by one
successful `updateVector` (whose single history entry carries
`scalar = 0.5`), `import(export())` succeeds but rebuilds the entry with
no scalar field, so the history's scalar column differs from its pre-round-
trip value. -/
theorem claim_C4_counterexample :
    (importState
        { vector := ⟨[7/10, 1/2, 1/2, 1/2]⟩
          history := [{ vector := ⟨[1/2, 1/2, 1/2, 1/2]⟩
                        operation := some "op"
                        timestamp := 1
                        scalar := some (1/2)
                        operationIndex := some 0 }]
          maxHistory := MAX_HISTORY
          weights := DEFAULT_WEIGHTS
          deltas := DEFAULT_DELTAS
          lastOperation := some "op"
          sessionStartTime := 0
          operationCount := 1 }
        (exportState
          { vector := ⟨[7/10, 1/2, 1/2, 1/2]⟩
            history := [{ vector := ⟨[1/2, 1/2, 1/2, 1/2]⟩
                          operation := some "op"
                          timestamp := 1
                          scalar := some (1/2)
                          operationIndex := some 0 }]
            maxHistory := MAX_HISTORY
            weights := DEFAULT_WEIGHTS
            deltas := DEFAULT_DELTAS
            lastOperation := some "op"
            sessionStartTime := 0
            operationCount := 1 } 2) 3).err = none ∧
    (importState
        { vector := ⟨[7/10, 1/2, 1/2, 1/2]⟩
          history := [{ vector := ⟨[1/2, 1/2, 1/2, 1/2]⟩
                        operation := some "op"
                        timestamp := 1
                        scalar := some (1/2)
                        operationIndex := some 0 }]
          maxHistory := MAX_HISTORY
          weights := DEFAULT_WEIGHTS
          deltas := DEFAULT_DELTAS
          lastOperation := some "op"
          sessionStartTime := 0
          operationCount := 1 }
        (exportState
          { vector := ⟨[7/10, 1/2, 1/2, 1/2]⟩
            history := [{ vector := ⟨[1/2, 1/2, 1/2, 1/2]⟩
                          operation := some "op"
                          timestamp := 1
                          scalar := some (1/2)
                          operationIndex := some 0 }]
            maxHistory := MAX_HISTORY
            weights := DEFAULT_WEIGHTS
            deltas := DEFAULT_DELTAS
            lastOperation := some "op"
            sessionStartTime := 0
            operationCount := 1 } 2) 3).state.history.map HistoryEntry.scalar ≠
      [some (1/2)] := by
  constructor
  · norm_num [importState, exportState, mkVector, resolveArg, validComp, compVal,
              parseHistory, importedStartTime, importedOpCount, DEFAULT_WEIGHTS,
              DEFAULT_DELTAS, MAX_HISTORY, List.take, List.replicate, List.map,
              List.all]
  · norm_num [importState, exportState, mkVector, resolveArg, validComp, compVal,
              parseHistory, importedStartTime, importedOpCount, DEFAULT_WEIGHTS,
              DEFAULT_DELTAS, MAX_HISTORY, List.take, List.replicate, List.map,
              List.all]
    decide

/-- C4 (amended): `import(export())` succeeds on every state whose current
vector and history snapshots are valid, and restores the current vector,
the weights, the deltas, the operation counter, and each history entry's
vector snapshot, operation label and timestamp — but the stored scalar
(and operation index) of the history entries are not part of the payload
and come back absent. -/
theorem claim_C4_amended (s : ComplexityState) (t1 t2 : ℤ)
    (hv : ValidVec s.vector) (hh : ∀ e ∈ s.history, ValidVec e.vector) :
    (importState s (exportState s t1) t2).err = none ∧
    (importState s (exportState s t1) t2).state.vector = s.vector ∧
    (importState s (exportState s t1) t2).state.weights = s.weights ∧
    (importState s (exportState s t1) t2).state.deltas = s.deltas ∧
    (importState s (exportState s t1) t2).state.history.map
        (fun e => (e.vector, e.operation, e.timestamp)) =
      s.history.map (fun e => (e.vector, e.operation, e.timestamp)) ∧
    (importState s (exportState s t1) t2).state.operationCount = s.operationCount := by
  have hmk := mkVector_of_valid s.vector hv
  have hph := parseHistory_export s.history hh
  simp only [importState, exportState, hmk, hph, Option.getD_some, importedOpCount,
             importedStartTime, List.map_map]
  simp [Function.comp]

/-- C4 (witness): the amended round-trip statement applied to the state
reached from the default state by one successful `updateVector`. -/
theorem claim_C4_amended_witness :
    (importState
        { vector := ⟨[7/10, 1/2, 1/2, 1/2]⟩
          history := [{ vector := ⟨[1/2, 1/2, 1/2, 1/2]⟩
                        operation := some "op"
                        timestamp := 1
                        scalar := some (1/2)
                        operationIndex := some 0 }]
          maxHistory := MAX_HISTORY
          weights := DEFAULT_WEIGHTS
          deltas := DEFAULT_DELTAS
          lastOperation := some "op"
          sessionStartTime := 0
          operationCount := 1 }
        (exportState
          { vector := ⟨[7/10, 1/2, 1/2, 1/2]⟩
            history := [{ vector := ⟨[1/2, 1/2, 1/2, 1/2]⟩
                          operation := some "op"
                          timestamp := 1
                          scalar := some (1/2)
                          operationIndex := some 0 }]
            maxHistory := MAX_HISTORY
            weights := DEFAULT_WEIGHTS
            deltas := DEFAULT_DELTAS
            lastOperation := some "op"
            sessionStartTime := 0
            operationCount := 1 } 2) 3).err = none ∧
    (importState
        { vector := ⟨[7/10, 1/2, 1/2, 1/2]⟩
          history := [{ vector := ⟨[1/2, 1/2, 1/2, 1/2]⟩
                        operation := some "op"
                        timestamp := 1
                        scalar := some (1/2)
                        operationIndex := some 0 }]
          maxHistory := MAX_HISTORY
          weights := DEFAULT_WEIGHTS
          deltas := DEFAULT_DELTAS
          lastOperation := some "op"
          sessionStartTime := 0
          operationCount := 1 }
        (exportState
          { vector := ⟨[7/10, 1/2, 1/2, 1/2]⟩
            history := [{ vector := ⟨[1/2, 1/2, 1/2, 1/2]⟩
                          operation := some "op"
                          timestamp := 1
                          scalar := some (1/2)
                          operationIndex := some 0 }]
            maxHistory := MAX_HISTORY
            weights := DEFAULT_WEIGHTS
            deltas := DEFAULT_DELTAS
            lastOperation := some "op"
            sessionStartTime := 0
            operationCount := 1 } 2) 3).state.vector = ⟨[7/10, 1/2, 1/2, 1/2]⟩ := by
  have h := claim_C4_amended
    { vector := ⟨[7/10, 1/2, 1/2, 1/2]⟩
      history := [{ vector := ⟨[1/2, 1/2, 1/2, 1/2]⟩
                    operation := some "op"
                    timestamp := 1
                    scalar := some (1/2)
                    operationIndex := some 0 }]
      maxHistory := MAX_HISTORY
      weights := DEFAULT_WEIGHTS
      deltas := DEFAULT_DELTAS
      lastOperation := some "op"
      sessionStartTime := 0
      operationCount := 1 } 2 3
    (by norm_num [ValidVec])
    (by
      intro e he
      norm_num at he
      rw [he]
      norm_num [ValidVec])
  exact ⟨h.1, h.2.1⟩

/-- C5 (counterexample): the all-zero weights array has four non-negative
entries, yet after `updateWeights([0,0,0,0])` (which divides by the zero
sum) the stored weights do not sum to 1 within `EPSILON` — the call even
reports success. -/
theorem claim_C5_counterexample :
    (updateWeights (initialState 0) (WeightsArg.arr [0, 0, 0, 0]) 3).err = none ∧
    ¬(|((updateWeights (initialState 0)
          (WeightsArg.arr [0, 0, 0, 0]) 3).state.weights).sum - 1| ≤ EPSILON) := by
  refine ⟨?_, ?_⟩ <;>
    norm_num [updateWeights, initialState, EPSILON, MAX_HISTORY, DEFAULT_WEIGHTS,
              DEFAULT_DELTAS]

/-- C5 (amended): for every array of exactly four non-negative entries
with *positive* sum, `updateWeights` succeeds and the stored weights sum
exactly to 1; and it throws whenever the argument is not an array of
exactly four entries. -/
theorem claim_C5_amended :
    (∀ (s : ComplexityState) (xs : List ℚ) (now : ℤ),
        xs.length = 4 → (∀ x ∈ xs, 0 ≤ x) → 0 < xs.sum →
        (updateWeights s (WeightsArg.arr xs) now).err = none ∧
        ((updateWeights s (WeightsArg.arr xs) now).state.weights).sum = 1) ∧
    (∀ (s : ComplexityState) (arg : WeightsArg) (now : ℤ),
        (∀ xs, arg = WeightsArg.arr xs → xs.length ≠ 4) →
        (updateWeights s arg now).err.isSome = true) := by
  constructor
  · intro s xs now hlen _hnn hpos
    have hsum : xs.sum ≠ 0 := ne_of_gt hpos
    refine ⟨by simp [updateWeights, hlen], ?_⟩
    simp only [updateWeights, hlen, if_pos]
    calc ((xs.map (fun wi => wi / xs.sum)).sum)
        = ((xs.map (fun wi => wi * (xs.sum)⁻¹)).sum) := by
          simp [div_eq_mul_inv]
      _ = (xs.map id).sum * (xs.sum)⁻¹ := List.sum_map_mul_right xs id _
      _ = xs.sum * (xs.sum)⁻¹ := by rw [List.map_id]
      _ = 1 := mul_inv_cancel₀ hsum
  · intro s arg now hbad
    cases arg with
    | arr xs =>
        have hne : xs.length ≠ 4 := hbad xs rfl
        simp [updateWeights, hne]
    | other => simp [updateWeights]

/-- C5 (witness): the amended statement applied to the weights `[1,1,1,1]`
(positive sum) and to the two-entry array `[1,1]` (wrong length). -/
theorem claim_C5_amended_witness :
    ((updateWeights (initialState 0) (WeightsArg.arr [1, 1, 1, 1]) 3).err = none ∧
     ((updateWeights (initialState 0)
        (WeightsArg.arr [1, 1, 1, 1]) 3).state.weights).sum = 1) ∧
    (updateWeights (initialState 0) (WeightsArg.arr [1, 1]) 3).err.isSome = true :=
  ⟨claim_C5_amended.1 (initialState 0) [1, 1, 1, 1] 3 (by norm_num)
      (by norm_num) (by norm_num),
   claim_C5_amended.2 (initialState 0) (WeightsArg.arr [1, 1]) 3 (by
      intro xs hx
      cases hx
      norm_num)⟩

/-- C6: for every valid initial vector and every deltas mapping,
`generateCycle` returns a result whose last recorded state is (a clone of)
the initial vector, hence equal to it under `equals` with the default
tolerance. -/
theorem claim_C6 (initial : ComplexityVector) (deltas : Deltas)
    (_h : ValidVec initial) :
    ∃ r : CycleResult, generateCycle initial deltas = some r ∧
      r.states.getLast? = some (cvClone initial) ∧
      cvEquals (cvClone initial) initial EPSILON = true := by
  refine ⟨_, rfl, rfl, cvEquals_self initial⟩

/-- C6 (witness): the cycle generated from the default vector with the
default deltas ends in the initial vector. -/
theorem claim_C6_witness :
    ∃ r : CycleResult,
      generateCycle ⟨[1/2, 1/2, 1/2, 1/2]⟩ DEFAULT_DELTAS = some r ∧
      r.states.getLast? = some (cvClone ⟨[1/2, 1/2, 1/2, 1/2]⟩) ∧
      cvEquals (cvClone ⟨[1/2, 1/2, 1/2, 1/2]⟩) ⟨[1/2, 1/2, 1/2, 1/2]⟩ EPSILON = true :=
  claim_C6 ⟨[1/2, 1/2, 1/2, 1/2]⟩ DEFAULT_DELTAS (by norm_num [ValidVec])

/-- C7: starting from any reachable history (length within capacity),
performing `maxHistory + k` updates leaves exactly `maxHistory` history
entries, and those entries are the last `maxHistory` elements of the full
snapshot log — the oldest `initial-length + k` entries have been evicted
first (FIFO). -/
theorem claim_C7 (s : ComplexityState)
    (calls : List (VectorArg × Option String × ℤ)) (k : ℕ)
    (h0 : s.history.length ≤ s.maxHistory)
    (_hall : ∀ c ∈ calls, VectorArg.parses c.1 = true)
    (hn : calls.length = s.maxHistory + k) :
    (runUpdates s calls).history.length = s.maxHistory ∧
    (runUpdates s calls).history =
      (s.history ++ runUpdatesLog s calls).drop (s.history.length + k) := by
  have h := runUpdates_history calls s h0
  constructor
  · rw [h.2, hn]
    exact min_eq_right (by omega)
  · rw [h.1, hn]
    congr 1
    omega

/-- C7 (witness): with capacity 2, three successful updates on an empty
history leave exactly two entries — the last two of the three logged
snapshots. -/
theorem claim_C7_witness :
    (runUpdates { initialState 0 with maxHistory := 2 }
        (List.replicate 3 (VectorArg.vec ⟨[1, 0, 0, 0]⟩, none, (0:ℤ)))).history.length =
      ({ initialState 0 with maxHistory := 2 } : ComplexityState).maxHistory ∧
    (runUpdates { initialState 0 with maxHistory := 2 }
        (List.replicate 3 (VectorArg.vec ⟨[1, 0, 0, 0]⟩, none, (0:ℤ)))).history =
      (({ initialState 0 with maxHistory := 2 } : ComplexityState).history ++
        runUpdatesLog { initialState 0 with maxHistory := 2 }
          (List.replicate 3 (VectorArg.vec ⟨[1, 0, 0, 0]⟩, none, (0:ℤ)))).drop
        (({ initialState 0 with maxHistory := 2 } : ComplexityState).history.length + 1) :=
  claim_C7 { initialState 0 with maxHistory := 2 }
    (List.replicate 3 (VectorArg.vec ⟨[1, 0, 0, 0]⟩, none, (0:ℤ))) 1
    (by simp [initialState])
    (by
      intro c hc
      rw [List.eq_of_mem_replicate hc]
      rfl)
    (by rfl)

/-- C8: on valid vectors, `add`, `subtract` and `scale` (any factor)
produce components that all lie in `[0,1]`, because every component of
their results passes through the `[0,1]` clamp. -/
theorem claim_C8 (a b : ComplexityVector) (factor : ℚ)
    (_ha : ValidVec a) (_hb : ValidVec b) :
    (∀ x ∈ (cvAdd a b).data, 0 ≤ x ∧ x ≤ 1) ∧
    (∀ x ∈ (cvSubtract a b).data, 0 ≤ x ∧ x ≤ 1) ∧
    (∀ x ∈ (cvScale a factor).data, 0 ≤ x ∧ x ≤ 1) := by
  refine ⟨?_, ?_, ?_⟩
  · intro x hx
    obtain ⟨u, v, rfl⟩ := mem_zipWith_ex hx
    exact ⟨clamp01_nonneg _, clamp01_le_one _⟩
  · intro x hx
    obtain ⟨u, v, rfl⟩ := mem_zipWith_ex hx
    exact ⟨clamp01_nonneg _, clamp01_le_one _⟩
  · intro x hx
    obtain ⟨u, -, rfl⟩ := List.mem_map.mp hx
    exact ⟨clamp01_nonneg _, clamp01_le_one _⟩

/-- C8 (witness): the range property at the default vector with scale
factor 3. -/
theorem claim_C8_witness :
    (∀ x ∈ (cvAdd ⟨[1/2, 1/2, 1/2, 1/2]⟩ ⟨[1/2, 1/2, 1/2, 1/2]⟩).data,
        0 ≤ x ∧ x ≤ 1) ∧
    (∀ x ∈ (cvSubtract ⟨[1/2, 1/2, 1/2, 1/2]⟩ ⟨[1/2, 1/2, 1/2, 1/2]⟩).data,
        0 ≤ x ∧ x ≤ 1) ∧
    (∀ x ∈ (cvScale ⟨[1/2, 1/2, 1/2, 1/2]⟩ 3).data, 0 ≤ x ∧ x ≤ 1) :=
  claim_C8 ⟨[1/2, 1/2, 1/2, 1/2]⟩ ⟨[1/2, 1/2, 1/2, 1/2]⟩ 3
    (by norm_num [ValidVec]) (by norm_num [ValidVec])

/-- C9: `improve` with a pillar index outside `0..3` does not throw: the
out-of-range write is dropped before the constructor reads its four
components, so the vector is unchanged — yet a snapshot is still pushed
onto history, the operation counter still increments, and an observer
notification is still emitted. -/
theorem claim_C9 (s : ComplexityState) (pillar : ℤ) (delta : ℚ) (now : ℤ)
    (hp : pillar < 0 ∨ 4 ≤ pillar) (hv : ValidVec s.vector) :
    (improve s pillar delta now).err = none ∧
    (improve s pillar delta now).state.vector = s.vector ∧
    (improve s pillar delta now).state.history =
      (addToHistory s (cvClone s.vector) (some "improve") now).history ∧
    (improve s pillar delta now).state.operationCount = s.operationCount + 1 ∧
    (improve s pillar delta now).events ≠ [] := by
  have hid : improveData s.vector.data pillar delta = s.vector.data := by
    unfold improveData
    rw [if_neg (by omega)]
  have hmk : mkVector (s.vector.data.map JSVal.num) = some s.vector :=
    mkVector_of_valid s.vector hv
  simp only [improve, hid, hmk]
  simp [updateVector, addToHistory, cvClone]

/-- C9 (witness): `improve` at pillar index 7 on the default state leaves
the vector unchanged while logging, counting and notifying. -/
theorem claim_C9_witness :
    (improve (initialState 0) 7 (1/5) 3).err = none ∧
    (improve (initialState 0) 7 (1/5) 3).state.vector = (initialState 0).vector ∧
    (improve (initialState 0) 7 (1/5) 3).state.history =
      (addToHistory (initialState 0) (cvClone (initialState 0).vector)
        (some "improve") 3).history ∧
    (improve (initialState 0) 7 (1/5) 3).state.operationCount =
      (initialState 0).operationCount + 1 ∧
    (improve (initialState 0) 7 (1/5) 3).events ≠ [] :=
  claim_C9 (initialState 0) 7 (1/5) 3 (Or.inr (by norm_num))
    (by norm_num [ValidVec, initialState])

/-- C10: a successful `reset` leaves exactly one history entry — the
snapshot of the vector that was current when `reset` was called — and an
operation counter of 1, because `reset` clears history and counters and
then routes the new vector through `updateVector`, which first logs the
pre-reset vector. -/
theorem claim_C10 (s : ComplexityState) (initial : List JSVal)
    (v : ComplexityVector) (now : ℤ)
    (hmk : mkVector initial = some v) (hcap : 1 ≤ s.maxHistory) :
    (reset s initial now).err = none ∧
    (reset s initial now).state.operationCount = 1 ∧
    (reset s initial now).state.history.map (fun e => e.vector) = [s.vector] := by
  have hlt : ¬ (s.maxHistory < 1) := by omega
  simp [reset, updateVector, addToHistory, historyEntry, cvClone, hmk, hlt]

/-- C10 (witness): resetting the default state to the default vector. -/
theorem claim_C10_witness :
    (reset (initialState 0) DEFAULT_VECTOR_ARGS 3).err = none ∧
    (reset (initialState 0) DEFAULT_VECTOR_ARGS 3).state.operationCount = 1 ∧
    (reset (initialState 0) DEFAULT_VECTOR_ARGS 3).state.history.map
        (fun e => e.vector) = [(initialState 0).vector] :=
  claim_C10 (initialState 0) DEFAULT_VECTOR_ARGS ⟨[1/2, 1/2, 1/2, 1/2]⟩ 3
    (by norm_num [mkVector, DEFAULT_VECTOR_ARGS, resolveArg, validComp, compVal,
                  List.take, List.replicate, List.all, List.map])
    (by norm_num [initialState, MAX_HISTORY])

end ComplexityDashboard
